import Mathlib

/-!
Verification development for the flashcard-automator application
(`main_page.py`, `flashcard_viewer.py`, `app.py`).

The Python code is shallowly embedded:
* JSON values produced by `json.loads` / consumed by `json.dump` are the
  inductive `JVal`; Python dictionaries appear as ordered association lists,
  matching CPython's insertion-order semantics.
* The flashcards file on disk is `Option FileContent`: `none` when the file
  does not exist, `FileContent.json v` when its text is valid JSON denoting
  the value `v`, and `FileContent.invalid e` when `json.load` would raise a
  decode error with message `e`.  `json.dump` of a value followed by
  `json.load` of the written text yields the same value for the string /
  list / object data handled here, so `save_flashcard_sets` writes
  `FileContent.json` of the saved dictionary.
* Calls to the external Gemini service are modelled by the outcome type
  `GeminiResult`: the response text together with its JSON-parse status.
* Python integer `%` is floored modulo; for the positive modulus used by the
  navigation code it coincides with Lean's Euclidean `Int.emod` (`%`).
* `random.sample(range(n), n)` runs a loop of `n` steps, each choosing a
  uniformly random index below the number of remaining pool elements
  (`_randbelow`); the random source is modelled as an oracle `g : Nat → Nat`
  whose value at each step is reduced modulo the pool size, which is exactly
  the range contract `_randbelow` guarantees.
* Streamlit UI side effects (`st.success`, `st.info`, spinners, reruns) are
  presentation only and are not part of the state; the `st.error` messages
  that the specification's error-handling claims refer to are modelled as
  explicit lists of reported error strings.
-/

/-- JSON values, as returned by Python's `json.loads`: objects keep their
key order (CPython dicts preserve insertion order). -/
inductive JVal where
  | null
  | bool (b : Bool)
  | num (n : Int)
  | str (s : String)
  | arr (elems : List JVal)
  | obj (fields : List (String × JVal))

/-- Python truthiness of a JSON-decoded value (`if cards:` in `main`):
`None`, `False`, `0`, `""`, `[]` and `\x7b\x7d` are falsy. -/
def JVal.truthy : JVal → Bool
  | .null => false
  | .bool b => b
  | .num n => n != 0
  | .str s => !s.isEmpty
  | .arr l => !l.isEmpty
  | .obj l => !l.isEmpty

/-- The `back` field of a flashcard: the prompt allows either a single
string or a list of bullet-point strings. -/
inductive Back where
  | str (s : String)
  | list (l : List String)
deriving DecidableEq

/-- One flashcard object with `type`, `front` and `back` fields, as the
generation prompt requests and the viewer consumes. -/
structure Flashcard where
  type : String
  front : String
  back : Back
deriving DecidableEq

/-- JSON encoding of a `back` field. -/
def encodeBack : Back → JVal
  | .str s => .str s
  | .list l => .arr (l.map JVal.str)

/-- JSON encoding of one flashcard object. -/
def encodeCard (c : Flashcard) : JVal :=
  .obj [("type", .str c.type), ("front", .str c.front), ("back", encodeBack c.back)]

/-- JSON encoding of a list of flashcards (a JSON array). -/
def encodeCards (cs : List Flashcard) : JVal :=
  .arr (cs.map encodeCard)

/-- JSON encoding of a mapping from set names to card lists, i.e. the entry
list of the top-level object stored in `flashcards.json`. -/
def encodeStore (m : List (String × List Flashcard)) : List (String × JVal) :=
  m.map (fun p => (p.1, encodeCards p.2))

/-- Decodes a JSON array of strings back to a string list. -/
def decodeStrings : List JVal → Option (List String)
  | [] => some []
  | .str s :: rest => (decodeStrings rest).map (fun l => s :: l)
  | _ => none

/-- Decodes a `back` field from JSON. -/
def decodeBack : JVal → Option Back
  | .str s => some (.str s)
  | .arr l => (decodeStrings l).map Back.list
  | _ => none

/-- Decodes one flashcard object from JSON. -/
def decodeCard : JVal → Option Flashcard
  | .obj [(k1, .str t), (k2, .str f), (k3, b)] =>
    if k1 = "type" ∧ k2 = "front" ∧ k3 = "back" then
      (decodeBack b).map (fun bb => { type := t, front := f, back := bb })
    else none
  | _ => none

/-- Decodes a list of JSON values as flashcards. -/
def decodeCardList : List JVal → Option (List Flashcard)
  | [] => some []
  | v :: rest =>
    match decodeCard v, decodeCardList rest with
    | some c, some cs => some (c :: cs)
    | _, _ => none

/-- Decodes the entry list of the top-level JSON object back to a mapping
from set names to card lists. -/
def decodeEntries : List (String × JVal) → Option (List (String × List Flashcard))
  | [] => some []
  | (k, .arr vs) :: rest =>
    match decodeCardList vs, decodeEntries rest with
    | some cs, some m => some ((k, cs) :: m)
    | _, _ => none
  | _ => none

/-- Decodes a JSON value as a flashcard-set mapping. -/
def decodeStore : JVal → Option (List (String × List Flashcard))
  | .obj fields => decodeEntries fields
  | _ => none

/-- Contents of `flashcards.json` on disk: either text that is valid JSON
denoting value `v`, or text on which `json.load` raises a decode error with
message `err`. -/
inductive FileContent where
  | json (v : JVal)
  | invalid (err : String)

/-- The fixed path both modules read and write (`FLASHCARDS_FILE`). -/
def FLASHCARDS_FILE : String := "flashcards.json"

namespace MainPage

/-- Embeds `save_flashcard_sets` of `main_page.py`: `json.dump` overwrites
the file with text whose `json.load` yields the dumped dictionary.  Disk
write failures (the `except` branch) are outside the model. -/
def save_flashcard_sets (flashcard_sets : List (String × JVal))
    (_fs : Option FileContent) : Option FileContent :=
  some (.json (.obj flashcard_sets))

/-- The `st.error` text of `load_flashcard_sets` in `main_page.py` when the
file exists but `json.load` raises `e`. -/
def load_error_message (e : String) : String :=
  "Error loading flashcard sets from " ++ FLASHCARDS_FILE ++ ": " ++ e

/-- Embeds `load_flashcard_sets` of `main_page.py`: missing file yields the
empty dict, a decode error yields the empty dict plus a reported error, and
valid JSON yields the decoded value.  The second component collects the
`st.error` messages reported. -/
def load_flashcard_sets : Option FileContent → JVal × List String
  | none => (.obj [], [])
  | some (.json v) => (v, [])
  | some (.invalid e) => (.obj [], [load_error_message e])

end MainPage

namespace FlashcardViewer

/-- The `st.error` text of `load_flashcard_sets` in `flashcard_viewer.py`. -/
def load_error_message (e : String) : String :=
  "Failed to load flashcard sets: " ++ e

/-- Embeds `load_flashcard_sets` of `flashcard_viewer.py` (same logic as in
`main_page.py`, different error text). -/
def load_flashcard_sets : Option FileContent → JVal × List String
  | none => (.obj [], [])
  | some (.json v) => (v, [])
  | some (.invalid e) => (.obj [], [load_error_message e])

end FlashcardViewer

/-- Outcome of the Gemini call inside `generate_flashcards_gemini`:
either `response.text` was valid JSON denoting `v`, or it was text `raw`
on which `json.loads` raises a `JSONDecodeError` with message `err`, or the
configuration/request itself raised an exception with message `msg`. -/
inductive GeminiResult where
  | parsed (v : JVal)
  | notJson (raw : String) (err : String)
  | apiError (msg : String)

/-- The `st.error` text of the `json.JSONDecodeError` branch of
`generate_flashcards_gemini` (line 105 of `main_page.py`). -/
def decode_error_message (err raw : String) : String :=
  "Error decoding JSON from Gemini response. Ensure Gemini generated valid JSON. Error: "
    ++ err ++ "\nRaw response (first 500 chars): " ++ raw.take 500 ++ "..."

/-- The `st.error` text of the generic `except` branch of
`generate_flashcards_gemini`. -/
def generic_error_message (msg : String) : String :=
  "An error occurred during Gemini flashcard generation: " ++ msg

/-- Embeds `generate_flashcards_gemini`: returns `json.loads(response.text)`
on success, and the empty list after reporting an error otherwise.  The
second component collects the `st.error` messages reported. -/
def generate_flashcards_gemini : GeminiResult → JVal × List String
  | .parsed v => (v, [])
  | .notJson raw err => (.arr [], [decode_error_message err raw])
  | .apiError msg => (.arr [], [generic_error_message msg])

/-- Python truthiness of an extraction result (`if question_text and
answer_text:`): `None` and the empty string are falsy. -/
def optStrTruthy : Option String → Bool
  | none => false
  | some s => !s.isEmpty

/-- CPython dict assignment `d[k] = v` on an ordered association list:
an existing key keeps its position, a new key is appended at the end. -/
def setKey : List (String × JVal) → String → JVal → List (String × JVal)
  | [], k, v => [(k, v)]
  | (k', v') :: rest, k, v =>
    if k' = k then (k, v) :: rest else (k', v') :: setKey rest k v

/-- CPython dict lookup `d[k]` / `d.get(k)` on an ordered association list. -/
def lookupKey : List (String × JVal) → String → Option JVal
  | [], _ => none
  | (k', v) :: rest, k => if k' = k then some v else lookupKey rest k

/-- The mutable state the generation page threads through a button press:
the in-session dictionary `st.session_state` of flashcard sets, and the
persisted file. -/
structure GenFlowState where
  flashcard_sets : List (String × JVal)
  file : Option FileContent

/-- Embeds the `if generate_button_pressed:` block of `main` in
`main_page.py` (lines 185–235).  Inputs: the entered set name, whether each
PDF is uploaded, the two extraction results (`None` on extraction failure),
and the Gemini outcome.  Returns the new state together with a flag that is
`true` exactly when `generate_flashcards_gemini` was invoked. -/
def generate_button_flow (set_name : String) (q_uploaded a_uploaded : Bool)
    (question_text answer_text : Option String) (resp : GeminiResult)
    (st : GenFlowState) : GenFlowState × Bool :=
  if set_name.isEmpty then (st, false)
  else if q_uploaded && a_uploaded then
    if optStrTruthy question_text && optStrTruthy answer_text then
      let cards := (generate_flashcards_gemini resp).1
      if cards.truthy then
        let sets := setKey st.flashcard_sets set_name cards
        ({ flashcard_sets := sets, file := MainPage.save_flashcard_sets sets st.file }, true)
      else (st, true)
    else (st, false)
  else (st, false)

/-- Embeds the file part of the `if clear_button_pressed:` block:
`if os.path.exists(FLASHCARDS_FILE): os.remove(FLASHCARDS_FILE)` — the file
is removed when present, and the filesystem is untouched otherwise. -/
def clear_file : Option FileContent → Option FileContent
  | some _ => none
  | none => none

/-- Embeds the `if clear_button_pressed:` block of `main` (lines 246–264):
the in-session dictionary is reset to the empty dict and the persisted file
is removed if present. -/
def clear_button_flow (st : GenFlowState) : GenFlowState :=
  { flashcard_sets := [], file := clear_file st.file }

/-- One chat turn stored in `st.session_state["chat_history"]`
(a dict with `role` and `content`). -/
structure ChatMessage where
  role : String
  content : String
deriving DecidableEq

/-- The per-session review state of the flashcard viewer: the cursor into
the shuffle order (`current_card_index`, a Python int, embedded as `Int`),
the answer-revealed flag, the chat transcript, the shuffle order
(`shuffled_cards`), the per-card chat context key, and the cards of the
currently open set.  The content hash used to detect set changes is
modelled by the boolean argument of `initialize_flashcard_viewer_state`. -/
structure ViewerState where
  current_card_index : Int
  show_answer : Bool
  chat_history : List ChatMessage
  shuffled_cards : List Nat
  current_flashcard_context : String
  flashcards_current_set : List Flashcard

/-- One selection step of `random.sample`: the loop body picks index
`j < pool.length` from the remaining pool (the oracle `g`, reduced to the
range `_randbelow` guarantees), emits that element, and removes it.  The
fuel argument is the loop counter `for i in range(k)` of `sample`. -/
def sampleAux (g : Nat → Nat) : Nat → Nat → List Nat → List Nat
  | _, 0, _ => []
  | step, k + 1, pool =>
    if pool.isEmpty then []
    else
      let j := g step % pool.length
      pool.getD j 0 :: sampleAux g (step + 1) k (pool.eraseIdx j)

/-- Embeds `random.sample(range(n), n)` with random source `g`. -/
def random_sample_range (g : Nat → Nat) (n : Nat) : List Nat :=
  sampleAux g 0 n (List.range n)

/-- Embeds `initialize_flashcard_viewer_state` of `flashcard_viewer.py`:
when the stored content hash matches the selected set the state is left
unchanged; otherwise the viewer state is reset and, if the set is nonempty,
`shuffled_cards` becomes `random.sample(range(n), n)`. -/
def initialize_flashcard_viewer_state (g : Nat → Nat)
    (current_set_hash_matches : Bool) (selected_flashcards : List Flashcard)
    (s : ViewerState) : ViewerState :=
  if current_set_hash_matches then s
  else
    { current_card_index := 0
      show_answer := false
      chat_history := []
      shuffled_cards :=
        if selected_flashcards.isEmpty then []
        else random_sample_range g selected_flashcards.length
      current_flashcard_context := ""
      flashcards_current_set := selected_flashcards }

/-- Embeds the `Previous Card` button of `navigation_controls`:
`current_card_index = (current_card_index - 1) % total_cards` (Python's
floored `%`, which for the positive modulus equals `Int.emod`), answer
hidden, transcript cleared.  `navigation_controls` returns before creating
the button when `total_cards = 0`. -/
def pressPrevious (total_cards : Nat) (s : ViewerState) : ViewerState :=
  { s with
    current_card_index := (s.current_card_index - 1) % (total_cards : Int)
    show_answer := false
    chat_history := [] }

/-- Embeds the `Shuffle Cards` button of `navigation_controls`: a fresh
`random.sample(range(total_cards), total_cards)`, cursor reset to `0`,
answer hidden, transcript cleared. -/
def pressShuffle (g : Nat → Nat) (total_cards : Nat) (s : ViewerState) : ViewerState :=
  { s with
    shuffled_cards := random_sample_range g total_cards
    current_card_index := 0
    show_answer := false
    chat_history := [] }

/-- Embeds the `Show Answer` button of `navigation_controls`: it only sets
`show_answer` to `True`. -/
def pressShowAnswer (s : ViewerState) : ViewerState :=
  { s with show_answer := true }

/-- Embeds the `Next Card` button of `navigation_controls`:
`current_card_index = (current_card_index + 1) % total_cards`, answer
hidden, transcript cleared. -/
def pressNext (total_cards : Nat) (s : ViewerState) : ViewerState :=
  { s with
    current_card_index := (s.current_card_index + 1) % (total_cards : Int)
    show_answer := false
    chat_history := [] }

/-! ### Round-trip lemmas for the JSON encoding of flashcard-set mappings -/

theorem decodeStrings_map_str (l : List String) :
    decodeStrings (l.map JVal.str) = some l := by
  induction l with
  | nil => rfl
  | cons s rest ih => simp [decodeStrings, ih]

theorem decodeBack_encodeBack (b : Back) : decodeBack (encodeBack b) = some b := by
  cases b with
  | str s => rfl
  | list l => simp [encodeBack, decodeBack, decodeStrings_map_str]

theorem decodeCard_encodeCard (c : Flashcard) : decodeCard (encodeCard c) = some c := by
  cases c with
  | mk t f b => simp [encodeCard, decodeCard, decodeBack_encodeBack]

theorem decodeCardList_map (cs : List Flashcard) :
    decodeCardList (cs.map encodeCard) = some cs := by
  induction cs with
  | nil => rfl
  | cons c rest ih => simp [decodeCardList, decodeCard_encodeCard, ih]

theorem decodeEntries_encodeStore (m : List (String × List Flashcard)) :
    decodeEntries (encodeStore m) = some m := by
  induction m with
  | nil => rfl
  | cons p rest ih =>
    obtain ⟨k, cs⟩ := p
    have ih2 : decodeEntries (List.map (fun p => (p.1, JVal.arr (List.map encodeCard p.2))) rest)
        = some rest := by simpa [encodeStore, encodeCards] using ih
    simp [encodeStore, encodeCards, decodeEntries, decodeCardList_map, ih2]

/-- C1: for every mapping from set-name strings to lists of flashcard
objects, saving with `save_flashcard_sets` and reloading with
`load_flashcard_sets` returns a mapping equal to the original — the loaded
JSON value is exactly the encoding of the mapping, and decoding it recovers
the same keys, the same card lists in the same order, and the same field
values. -/
theorem save_load_roundtrip (m : List (String × List Flashcard))
    (fs0 : Option FileContent) :
    MainPage.load_flashcard_sets (MainPage.save_flashcard_sets (encodeStore m) fs0)
      = (JVal.obj (encodeStore m), []) ∧
    decodeStore (JVal.obj (encodeStore m)) = some m :=
  ⟨rfl, decodeEntries_encodeStore m⟩

/-- C4: `Show Answer` sets only the answer-revealed flag to `true` and
changes no other review-session field (transcript, cursor, shuffle order,
chat context, and current set are untouched), while each of `Next`,
`Previous` and `Shuffle` empties the chat transcript and hides the
answer. -/
theorem reveal_frame_navigation_clears (g : Nat → Nat) (n : Nat) (s : ViewerState) :
    (pressShowAnswer s).show_answer = true ∧
    (pressShowAnswer s).chat_history = s.chat_history ∧
    (pressShowAnswer s).current_card_index = s.current_card_index ∧
    (pressShowAnswer s).shuffled_cards = s.shuffled_cards ∧
    (pressShowAnswer s).current_flashcard_context = s.current_flashcard_context ∧
    (pressShowAnswer s).flashcards_current_set = s.flashcards_current_set ∧
    (pressNext n s).chat_history = [] ∧ (pressNext n s).show_answer = false ∧
    (pressPrevious n s).chat_history = [] ∧ (pressPrevious n s).show_answer = false ∧
    (pressShuffle g n s).chat_history = [] ∧ (pressShuffle g n s).show_answer = false :=
  ⟨rfl, rfl, rfl, rfl, rfl, rfl, rfl, rfl, rfl, rfl, rfl, rfl⟩

/-- C5: for every Gemini response whose text is not valid JSON,
`generate_flashcards_gemini` returns the empty list (instead of raising)
and reports exactly one decode-error message, whose text contains the first
500 characters of the raw response. -/
theorem gemini_parse_error_empty_and_diagnostic (raw err : String) :
    generate_flashcards_gemini (.notJson raw err) =
      (JVal.arr [], [decode_error_message err raw]) ∧
    ∃ pre post, decode_error_message err raw = pre ++ raw.take 500 ++ post :=
  ⟨rfl,
   "Error decoding JSON from Gemini response. Ensure Gemini generated valid JSON. Error: "
     ++ err ++ "\nRaw response (first 500 chars): ", "...", rfl⟩

/-- C6: both copies of `load_flashcard_sets` return the empty mapping when
the flashcards file does not exist, and when the file exists but is not
parseable as JSON they report a non-fatal load error and still return the
empty mapping instead of raising. -/
theorem load_missing_or_malformed_empty (e : String) :
    MainPage.load_flashcard_sets none = (JVal.obj [], []) ∧
    FlashcardViewer.load_flashcard_sets none = (JVal.obj [], []) ∧
    MainPage.load_flashcard_sets (some (.invalid e)) =
      (JVal.obj [], [MainPage.load_error_message e]) ∧
    FlashcardViewer.load_flashcard_sets (some (.invalid e)) =
      (JVal.obj [], [FlashcardViewer.load_error_message e]) :=
  ⟨rfl, rfl, rfl, rfl⟩

/-- C9: `Clear All Data` deletes the persisted file when it exists and
leaves the filesystem untouched (still no file) when it does not; in either
case a subsequent `load_flashcard_sets` returns the empty mapping. -/
theorem clear_removes_file_load_empty (st : GenFlowState) (c : FileContent) :
    clear_file (some c) = none ∧
    clear_file none = none ∧
    (clear_button_flow st).file = none ∧
    MainPage.load_flashcard_sets (clear_button_flow st).file = (JVal.obj [], []) := by
  obtain ⟨sets, file⟩ := st
  cases file <;> exact ⟨rfl, rfl, rfl, rfl⟩

/-! ### The sampled shuffle order is a permutation -/

theorem cons_getD_eraseIdx_perm (l : List Nat) (j : Nat) (h : j < l.length) :
    (l.getD j 0 :: l.eraseIdx j).Perm l := by
  induction l generalizing j with
  | nil => simp at h
  | cons a t ih =>
    cases j with
    | zero => simp
    | succ j =>
      have hj : j < t.length := by simpa using h
      have step := (ih j hj).cons a
      have sw : (t.getD j 0 :: a :: t.eraseIdx j).Perm (a :: t.getD j 0 :: t.eraseIdx j) :=
        List.Perm.swap a (t.getD j 0) (t.eraseIdx j)
      simpa using sw.trans step

theorem sampleAux_perm (g : Nat → Nat) (k : Nat) :
    ∀ (step : Nat) (pool : List Nat), pool.length = k →
      (sampleAux g step k pool).Perm pool := by
  induction k with
  | zero =>
    intro step pool h
    rw [List.length_eq_zero] at h
    subst h
    simp [sampleAux]
  | succ k ih =>
    intro step pool h
    have hne : pool.isEmpty = false := by
      cases pool with
      | nil => simp at h
      | cons a t => rfl
    have hpos : 0 < pool.length := by
      rw [h]; exact Nat.succ_pos k
    have hj : g step % pool.length < pool.length := Nat.mod_lt _ hpos
    have herase : (pool.eraseIdx (g step % pool.length)).length = k := by
      rw [List.length_eraseIdx_of_lt hj, h]
      omega
    have tail := ih (step + 1) (pool.eraseIdx (g step % pool.length)) herase
    have head := cons_getD_eraseIdx_perm pool (g step % pool.length) hj
    rw [sampleAux, hne]
    simpa using (tail.cons (pool.getD (g step % pool.length) 0)).trans head

theorem random_sample_range_perm (g : Nat → Nat) (n : Nat) :
    (random_sample_range g n).Perm (List.range n) :=
  sampleAux_perm g n 0 (List.range n) (List.length_range n)

/-- C2: for every set of size `n > 0`, both the `Shuffle` button and the
initial shuffle performed when a set is opened produce a `shuffled_cards`
list that is a permutation of `List.range n` — it has length `n` and
contains every index from `0` to `n - 1` exactly once — for every random
source `g`, so repeated shuffles are always such permutations. -/
theorem shuffle_is_valid_permutation (g : Nat → Nat) (n : Nat) (hn : 0 < n)
    (s : ViewerState) (cards : List Flashcard) (hcards : cards.length = n) :
    ((pressShuffle g n s).shuffled_cards).Perm (List.range n) ∧
    ((initialize_flashcard_viewer_state g false cards s).shuffled_cards).Perm
      (List.range n) := by
  constructor
  · exact random_sample_range_perm g n
  · have hne : cards.isEmpty = false := by
      cases cards with
      | nil => simp at hcards; omega
      | cons a t => rfl
    simp [initialize_flashcard_viewer_state, hne, hcards]
    exact random_sample_range_perm g n

/-- Witness for C2 at a concrete two-card set and a concrete random
source. -/
theorem shuffle_is_valid_permutation_witness :
    0 < 2 ∧
    ([⟨"definition", "f1", Back.str "b1"⟩,
      ⟨"cloze", "f2", Back.str "b2"⟩] : List Flashcard).length = 2 ∧
    (((pressShuffle (fun _ => 1) 2
        ⟨0, false, [], [], "", []⟩).shuffled_cards).Perm (List.range 2) ∧
     ((initialize_flashcard_viewer_state (fun _ => 1) false
        [⟨"definition", "f1", Back.str "b1"⟩, ⟨"cloze", "f2", Back.str "b2"⟩]
        ⟨0, false, [], [], "", []⟩).shuffled_cards).Perm (List.range 2)) :=
  ⟨by decide, by decide,
   shuffle_is_valid_permutation (fun _ => 1) 2 (by decide)
     ⟨0, false, [], [], "", []⟩
     [⟨"definition", "f1", Back.str "b1"⟩, ⟨"cloze", "f2", Back.str "b2"⟩]
     (by decide)⟩

/-- C3: in a review view with `n > 0` cards and a cursor in `[0, n)`, the
`Next` button replaces the cursor `c` with `(c + 1) mod n` and the
`Previous` button replaces it with `(c - 1) mod n` (Python's floored
modulo); in particular `Next` from position `n - 1` moves to `0` and
`Previous` from position `0` moves to `n - 1`. -/
theorem next_previous_wrap_mod (n : Nat) (hn : 0 < n) (s : ViewerState)
    (_hlo : 0 ≤ s.current_card_index) (_hhi : s.current_card_index < (n : Int)) :
    (pressNext n s).current_card_index = (s.current_card_index + 1) % (n : Int) ∧
    (pressPrevious n s).current_card_index =
      (s.current_card_index - 1 + (n : Int)) % (n : Int) ∧
    (s.current_card_index = (n : Int) - 1 → (pressNext n s).current_card_index = 0) ∧
    (s.current_card_index = 0 → (pressPrevious n s).current_card_index = (n : Int) - 1) := by
  have hn' : (0 : Int) < (n : Int) := by exact_mod_cast hn
  refine ⟨rfl, ?_, ?_, ?_⟩
  · show (s.current_card_index - 1) % (n : Int) =
      (s.current_card_index - 1 + (n : Int)) % (n : Int)
    have := Int.add_mul_emod_self_left (s.current_card_index - 1) (n : Int) 1
    calc (s.current_card_index - 1) % (n : Int)
        = (s.current_card_index - 1 + (n : Int) * 1) % (n : Int) := this.symm
      _ = (s.current_card_index - 1 + (n : Int)) % (n : Int) := by rw [Int.mul_one]
  · intro hc
    show (s.current_card_index + 1) % (n : Int) = 0
    rw [hc]
    simp
  · intro hc
    show (s.current_card_index - 1) % (n : Int) = (n : Int) - 1
    rw [hc]
    have h1 : ((0 : Int) - 1 + (n : Int) * 1) % (n : Int) = ((0 : Int) - 1) % (n : Int) :=
      Int.add_mul_emod_self_left (0 - 1) (n : Int) 1
    have h2 : ((0 : Int) - 1 + (n : Int) * 1) % (n : Int) = (n : Int) - 1 := by
      rw [Int.mul_one]
      have : (0 : Int) - 1 + (n : Int) = (n : Int) - 1 := by ring
      rw [this]
      exact Int.emod_eq_of_lt (by omega) (by omega)
    rw [← h1.symm.trans h2]

/-- Witness for C3 at `n = 3` with the cursor on the last card. -/
theorem next_previous_wrap_mod_witness :
    0 < 3 ∧ (0 : Int) ≤ 2 ∧ (2 : Int) < ((3 : Nat) : Int) ∧
    ((pressNext 3 ⟨2, false, [], [0, 1, 2], "", []⟩).current_card_index =
        ((2 : Int) + 1) % ((3 : Nat) : Int) ∧
     (pressPrevious 3 ⟨2, false, [], [0, 1, 2], "", []⟩).current_card_index =
        ((2 : Int) - 1 + ((3 : Nat) : Int)) % ((3 : Nat) : Int) ∧
     ((2 : Int) = ((3 : Nat) : Int) - 1 →
        (pressNext 3 ⟨2, false, [], [0, 1, 2], "", []⟩).current_card_index = 0) ∧
     ((2 : Int) = 0 →
        (pressPrevious 3 ⟨2, false, [], [0, 1, 2], "", []⟩).current_card_index =
          ((3 : Nat) : Int) - 1)) :=
  ⟨by decide, by decide, by decide,
   next_previous_wrap_mod 3 (by decide) ⟨2, false, [], [0, 1, 2], "", []⟩
     (by decide) (by decide)⟩

/-! ### Generation-flow lemmas -/

theorem lookupKey_setKey_self (l : List (String × JVal)) (k : String) (v : JVal) :
    lookupKey (setKey l k v) k = some v := by
  induction l with
  | nil => simp [setKey, lookupKey]
  | cons p rest ih =>
    obtain ⟨k', v'⟩ := p
    by_cases hk : k' = k
    · simp [setKey, lookupKey, hk]
    · simp [setKey, lookupKey, hk, ih]

theorem lookupKey_setKey_ne (l : List (String × JVal)) (k other : String) (v : JVal)
    (h : other ≠ k) :
    lookupKey (setKey l k v) other = lookupKey l other := by
  have hko : ¬ (k = other) := fun hh => h hh.symm
  induction l with
  | nil => simp [setKey, lookupKey, hko]
  | cons p rest ih =>
    obtain ⟨k', v'⟩ := p
    by_cases hk : k' = k
    · simp [setKey, lookupKey, hk, hko]
    · simp [setKey, lookupKey, hk, ih]

theorem generate_button_flow_stores (set_name qt at2 : String)
    (cards : List Flashcard) (st : GenFlowState)
    (h1 : set_name.isEmpty = false) (h2 : qt.isEmpty = false)
    (h3 : at2.isEmpty = false) (h4 : cards ≠ []) :
    generate_button_flow set_name true true (some qt) (some at2)
        (.parsed (encodeCards cards)) st =
      ({ flashcard_sets := setKey st.flashcard_sets set_name (encodeCards cards)
         file := some (.json (.obj (setKey st.flashcard_sets set_name (encodeCards cards)))) },
       true) := by
  have htr : (encodeCards cards).truthy = true := by
    cases cards with
    | nil => exact absurd rfl h4
    | cons c rest => rfl
  simp [generate_button_flow, h1, h2, h3, optStrTruthy, generate_flashcards_gemini,
    htr, MainPage.save_flashcard_sets]

/-- C8: if text extraction fails for either one (or both) of the two
uploaded documents, the generation step is skipped entirely: no Gemini call
is made (the call flag is `false`), no set is stored, and neither the
in-session mapping nor the persisted file changes. -/
theorem extraction_failure_skips_generation (set_name : String)
    (q_uploaded a_uploaded : Bool) (question_text answer_text : Option String)
    (resp : GeminiResult) (st : GenFlowState)
    (h : question_text = none ∨ answer_text = none) :
    generate_button_flow set_name q_uploaded a_uploaded question_text answer_text
      resp st = (st, false) := by
  rcases h with h | h <;> subst h <;>
    simp only [generate_button_flow, optStrTruthy, Bool.false_and, Bool.and_false,
      Bool.false_eq_true, if_false] <;>
    split <;> try rfl
  all_goals split <;> rfl

/-- Witness for C8: a failed question-paper extraction with everything else
present leaves the state untouched and never calls Gemini. -/
theorem extraction_failure_skips_generation_witness :
    ((none : Option String) = none ∨ (some "answers" : Option String) = none) ∧
    generate_button_flow "Physics" true true none (some "answers")
        (.parsed (JVal.arr [])) ⟨[("old", JVal.arr [])], none⟩ =
      (⟨[("old", JVal.arr [])], none⟩, false) :=
  ⟨Or.inl rfl,
   extraction_failure_skips_generation "Physics" true true none (some "answers")
     (.parsed (JVal.arr [])) ⟨[("old", JVal.arr [])], none⟩ (Or.inl rfl)⟩

/-- Counterexample to C7 as stated: with both extractions succeeding and the
AI response parsing to the well-formed *empty* JSON array, the code's
`if cards:` guard treats the empty list as falsy, so nothing is stored under
the entered set name and nothing is persisted — contradicting the claim that
the flow stores exactly that array and persists it "including the empty
array". -/
theorem empty_array_generation_not_stored :
    (generate_button_flow "Set A" true true (some "q") (some "a")
        (.parsed (JVal.arr [])) ⟨[], none⟩).1.flashcard_sets = [] ∧
    (generate_button_flow "Set A" true true (some "q") (some "a")
        (.parsed (JVal.arr [])) ⟨[], none⟩).1.file = none ∧
    lookupKey (generate_button_flow "Set A" true true (some "q") (some "a")
        (.parsed (JVal.arr [])) ⟨[], none⟩).1.flashcard_sets "Set A" = none :=
  ⟨rfl, rfl, rfl⟩

/-- C7 (amended): for every pair of documents whose extraction succeeds with
non-empty text and every AI response that parses to a well-formed *non-empty*
JSON array of flashcard objects, the generation flow stores exactly that
array under the entered set name and persists the updated mapping, so that a
subsequent load returns the persisted mapping with that same array under the
set name.  (The empty array is *not* stored: see the counterexample.) -/
theorem generation_stores_nonempty_array (set_name qt at2 : String)
    (cards : List Flashcard) (st : GenFlowState)
    (h1 : set_name.isEmpty = false) (h2 : qt.isEmpty = false)
    (h3 : at2.isEmpty = false) (h4 : cards ≠ []) :
    lookupKey (generate_button_flow set_name true true (some qt) (some at2)
        (.parsed (encodeCards cards)) st).1.flashcard_sets set_name =
      some (encodeCards cards) ∧
    (generate_button_flow set_name true true (some qt) (some at2)
        (.parsed (encodeCards cards)) st).1.file =
      some (.json (.obj (generate_button_flow set_name true true (some qt) (some at2)
        (.parsed (encodeCards cards)) st).1.flashcard_sets)) ∧
    MainPage.load_flashcard_sets (generate_button_flow set_name true true (some qt)
        (some at2) (.parsed (encodeCards cards)) st).1.file =
      (JVal.obj (generate_button_flow set_name true true (some qt) (some at2)
        (.parsed (encodeCards cards)) st).1.flashcard_sets, []) := by
  rw [generate_button_flow_stores set_name qt at2 cards st h1 h2 h3 h4]
  exact ⟨lookupKey_setKey_self _ _ _, rfl, rfl⟩

/-- Witness for C7 (amended) at a concrete one-card generation. -/
theorem generation_stores_nonempty_array_witness :
    ("Set A" : String).isEmpty = false ∧ ("qtext" : String).isEmpty = false ∧
    ("atext" : String).isEmpty = false ∧
    ([⟨"definition", "What is X?", Back.str "X is Y."⟩] : List Flashcard) ≠ [] ∧
    (lookupKey (generate_button_flow "Set A" true true (some "qtext") (some "atext")
        (.parsed (encodeCards [⟨"definition", "What is X?", Back.str "X is Y."⟩]))
        ⟨[], none⟩).1.flashcard_sets "Set A" =
      some (encodeCards [⟨"definition", "What is X?", Back.str "X is Y."⟩]) ∧
     (generate_button_flow "Set A" true true (some "qtext") (some "atext")
        (.parsed (encodeCards [⟨"definition", "What is X?", Back.str "X is Y."⟩]))
        ⟨[], none⟩).1.file =
      some (.json (.obj (generate_button_flow "Set A" true true (some "qtext")
        (some "atext")
        (.parsed (encodeCards [⟨"definition", "What is X?", Back.str "X is Y."⟩]))
        ⟨[], none⟩).1.flashcard_sets)) ∧
     MainPage.load_flashcard_sets (generate_button_flow "Set A" true true
        (some "qtext") (some "atext")
        (.parsed (encodeCards [⟨"definition", "What is X?", Back.str "X is Y."⟩]))
        ⟨[], none⟩).1.file =
      (JVal.obj (generate_button_flow "Set A" true true (some "qtext") (some "atext")
        (.parsed (encodeCards [⟨"definition", "What is X?", Back.str "X is Y."⟩]))
        ⟨[], none⟩).1.flashcard_sets, [])) :=
  ⟨rfl, rfl, rfl, by simp,
   generation_stores_nonempty_array "Set A" "qtext" "atext"
     [⟨"definition", "What is X?", Back.str "X is Y."⟩] ⟨[], none⟩
     rfl rfl rfl (by simp)⟩

/-- C10: generating a non-empty card list under a set name updates only that
entry — every other set name keeps exactly its previous value, both in the
in-session mapping and in the file written by the subsequent save (which is
the JSON dump of that very mapping). -/
theorem generation_preserves_other_sets (set_name qt at2 : String)
    (cards : List Flashcard) (st : GenFlowState) (other : String)
    (h1 : set_name.isEmpty = false) (h2 : qt.isEmpty = false)
    (h3 : at2.isEmpty = false) (h4 : cards ≠ []) (hne : other ≠ set_name) :
    lookupKey (generate_button_flow set_name true true (some qt) (some at2)
        (.parsed (encodeCards cards)) st).1.flashcard_sets other =
      lookupKey st.flashcard_sets other ∧
    (generate_button_flow set_name true true (some qt) (some at2)
        (.parsed (encodeCards cards)) st).1.file =
      some (.json (.obj (generate_button_flow set_name true true (some qt) (some at2)
        (.parsed (encodeCards cards)) st).1.flashcard_sets)) := by
  rw [generate_button_flow_stores set_name qt at2 cards st h1 h2 h3 h4]
  exact ⟨lookupKey_setKey_ne _ _ _ _ hne, rfl⟩

/-- Witness for C10: generating under `"Set A"` leaves the pre-existing
entry `"Set B"` untouched. -/
theorem generation_preserves_other_sets_witness :
    ("Set A" : String).isEmpty = false ∧ ("q" : String).isEmpty = false ∧
    ("a" : String).isEmpty = false ∧
    ([⟨"cloze", "The answer is ___.", Back.str "42"⟩] : List Flashcard) ≠ [] ∧
    ("Set B" : String) ≠ "Set A" ∧
    (lookupKey (generate_button_flow "Set A" true true (some "q") (some "a")
        (.parsed (encodeCards [⟨"cloze", "The answer is ___.", Back.str "42"⟩]))
        ⟨[("Set B", JVal.arr [JVal.str "x"])], none⟩).1.flashcard_sets "Set B" =
      lookupKey [("Set B", JVal.arr [JVal.str "x"])] "Set B" ∧
     (generate_button_flow "Set A" true true (some "q") (some "a")
        (.parsed (encodeCards [⟨"cloze", "The answer is ___.", Back.str "42"⟩]))
        ⟨[("Set B", JVal.arr [JVal.str "x"])], none⟩).1.file =
      some (.json (.obj (generate_button_flow "Set A" true true (some "q") (some "a")
        (.parsed (encodeCards [⟨"cloze", "The answer is ___.", Back.str "42"⟩]))
        ⟨[("Set B", JVal.arr [JVal.str "x"])], none⟩).1.flashcard_sets))) :=
  ⟨rfl, rfl, rfl, by simp, by simp,
   generation_preserves_other_sets "Set A" "q" "a"
     [⟨"cloze", "The answer is ___.", Back.str "42"⟩]
     ⟨[("Set B", JVal.arr [JVal.str "x"])], none⟩ "Set B"
     rfl rfl rfl (by simp) (by simp)⟩
